import Mathlib

/-!
Shallow embedding of the krumnet request-routing and game-route handlers.

The embedded source files are `src/lib.rs` (the `route` dispatch function)
and `src/routes/games/mod.rs` (the `create`, `find`, `find_game`,
`create_entry`, `members_for_game`, `rounds_for_game` handlers).
Collaborator modules that are not part of the provided sources
(`http::Response`, `http::Uri`, `read_size_async`, `jobs::JobStore`,
`context::Context`, `interchange`) are modelled from the spec, as marked
on each definition.

Side effects on the shared stores are made observable through an explicit
effect trace: every record-store query and every job enqueue appends an
`Effect` to the trace.  A handler is a function from the incoming trace to
an `Except` result paired with the outgoing trace; an error result still
carries the trace accumulated before the failure (Rust's `?` early return).
-/

namespace Krumnet

/-- Errors are identified by their message, mirroring `std::io::Error` payloads. -/
abbrev Err := String

/-- Request methods recognized by the `elaine` protocol collaborator. -/
inductive RequestMethod
  | GET
  | POST
  | PUT
  | DELETE
  | OPTIONS
  | HEAD
deriving DecidableEq, Repr

/-- The caller's resolved identity (`authority::Authority`): `None` for an
anonymous caller, `User { id, email, .. }` for an authenticated one. -/
inductive Authority
  | anonymous
  | user (id : String) (email : String)
deriving DecidableEq, Repr

/-- Modelled from the spec: deferred units of game-state work
(`interchange::jobs::Job`), each with its input payload and a `result`
slot that is empty at enqueue time. -/
inductive Job
  | CreateGame (creator : String) (lobby_id : String) (result : Option String)
  | CheckRoundFulfillment (round_id : String) (result : Option String)
deriving DecidableEq, Repr

/-- Identifies which SQL query string a record-store call uses
(the `include`-loaded SQL constants of `routes/games/mod.rs` and
`LOAD_LOBBY_DETAILS` from `routes/lobbies`). -/
inductive QueryName
  | loadLobbyDetails
  | loadGame
  | loadMembers
  | loadRounds
  | gameForEntry
  | createEntry
deriving DecidableEq, Repr

/-- A value stored in one column of a returned row: a string, a timestamp
(milliseconds), a 32-bit signed integer, or SQL null. -/
inductive ColVal
  | s (v : String)
  | t (v : Int)
  | i32 (v : Int)
  | null
deriving DecidableEq, Repr

/-- A returned row: named columns in positional order, so both
`try_get(index)` and `try_get("name")` are supported. -/
abbrev Row := List (String × ColVal)

/-- `row.try_get::<_, String>(idx)` -/
def tryGetString (row : Row) (idx : Nat) : Except Err String :=
  match row.get? idx with
  | some (_, ColVal.s v) => Except.ok v
  | some _ => Except.error "column type mismatch"
  | none => Except.error "missing column"

/-- `row.try_get::<_, DateTime<Utc>>(idx)` -/
def tryGetTime (row : Row) (idx : Nat) : Except Err Int :=
  match row.get? idx with
  | some (_, ColVal.t v) => Except.ok v
  | some _ => Except.error "column type mismatch"
  | none => Except.error "missing column"

/-- `row.try_get::<_, String>("name")` -/
def tryGetNamedString (row : Row) (name : String) : Except Err String :=
  match row.find? (fun p => p.1 == name) with
  | some (_, ColVal.s v) => Except.ok v
  | some _ => Except.error "column type mismatch"
  | none => Except.error "missing column"

/-- `row.try_get::<_, DateTime<Utc>>("name")` -/
def tryGetNamedTime (row : Row) (name : String) : Except Err Int :=
  match row.find? (fun p => p.1 == name) with
  | some (_, ColVal.t v) => Except.ok v
  | some _ => Except.error "column type mismatch"
  | none => Except.error "missing column"

/-- `row.try_get::<_, i32>("name")` -/
def tryGetNamedI32 (row : Row) (name : String) : Except Err Int :=
  match row.find? (fun p => p.1 == name) with
  | some (_, ColVal.i32 v) => Except.ok v
  | some _ => Except.error "column type mismatch"
  | none => Except.error "missing column"

/-- `row.try_get::<_, Option<DateTime<Utc>>>("name")` (nullable timestamp) -/
def tryGetNamedOptTime (row : Row) (name : String) : Except Err (Option Int) :=
  match row.find? (fun p => p.1 == name) with
  | some (_, ColVal.t v) => Except.ok (some v)
  | some (_, ColVal.null) => Except.ok none
  | some _ => Except.error "column type mismatch"
  | none => Except.error "missing column"

/-- An observable side effect on a shared collaborator: one record-store
query or one job enqueue. -/
inductive Effect
  | query (q : QueryName) (params : List String)
  | enqueue (j : Job)
deriving DecidableEq, Repr

/-- The effect trace accumulated while a handler runs. -/
abbrev Effects := List Effect

/-- A stateful fallible computation: from the incoming effect trace to an
`Except` result and the outgoing trace.  An error result keeps the trace
accumulated so far (Rust's `?` returns early but the I/O already happened). -/
abbrev M (α : Type) : Type := Effects → Except Err α × Effects

/-- Modelled from the spec: the record store collaborator answers a query
(identified by its SQL constant) with rows or a persistence error. -/
structure RecordStore where
  query : QueryName → List String → Except Err (List Row)

/-- Modelled from the spec: `JobStore.queue` persists a pending job record
and returns its freshly generated identifier, or a persistence error. -/
structure JobStore where
  queue : Job → Except Err String

/-- Modelled from the spec: the per-request `Context` — resolved authority,
CORS origin policy, maximum pending body size, and handles to the record
store and job queue.  `now` stands in for the wall clock read by the
health check. -/
structure Context where
  authority : Authority
  cors : String
  pending : Nat
  records : RecordStore
  jobs : JobStore
  now : Int

/-- Response status as produced by the `http::Response` constructors used
in the sources: ok, not-found, or the generic server failure. -/
inductive ResponseStatus
  | ok
  | notFound
  | failed
deriving DecidableEq, Repr

/-- `interchange::http::GameMember`, modelled from the spec. -/
structure GameMember where
  member_id : String
  user_id : String
  email : String
  name : String
  joined : Int
deriving DecidableEq, Repr

/-- `interchange::http::GameRound`, modelled from the spec. -/
structure GameRound where
  id : String
  position : Nat
  prompt : String
  created : Int
  started : Option Int
  fulfilled : Option Int
  completed : Option Int
deriving DecidableEq, Repr

/-- The JSON bodies the embedded handlers serialize: the job-handle
envelope, game details, and the health-check payload. -/
inductive ResponseBody
  | jobHandle (id : String) (result : Option String)
  | gameDetails (id : String) (created : Int) (name : String)
      (members : List GameMember) (rounds : List GameRound)
  | healthCheck (time : Int)
deriving DecidableEq, Repr

/-- Modelled from the spec: an HTTP `Response` — status, optional CORS
origin header, optional JSON body. -/
structure Response where
  status : ResponseStatus
  corsOrigin : Option String
  body : Option ResponseBody
deriving DecidableEq, Repr

/-- `Response::not_found()` -/
def Response.not_found : Response :=
  { status := ResponseStatus.notFound, corsOrigin := none, body := none }

/-- `Response::default()` (empty success) -/
def Response.default : Response :=
  { status := ResponseStatus.ok, corsOrigin := none, body := none }

/-- `Response::failed()` (generic server failure, no diagnostic body) -/
def Response.failed : Response :=
  { status := ResponseStatus.failed, corsOrigin := none, body := none }

/-- `Response::ok_json(data)` — serializes `data` as the body of a success
response; serialization of the embedded bodies always succeeds. -/
def Response.ok_json (b : ResponseBody) : Except Err Response :=
  Except.ok { status := ResponseStatus.ok, corsOrigin := none, body := some b }

/-- `response.cors(origin)` — attach the `Access-Control-Allow-Origin`
header from the context's CORS policy. -/
def Response.cors (r : Response) (origin : String) : Response :=
  { r with corsOrigin := some origin }

/-- Modelled from the spec: a parsed request URI — path plus the ordered
list of query parameters (repeated keys allowed). -/
structure Uri where
  path : String
  query : List (String × String)

/-- Modelled from the spec: `http::query_values(uri, key)` collects the
values of every query parameter with the given (repeated) key. -/
def query_values (uri : Uri) (key : String) : List String :=
  (uri.query.filter (fun p => p.1 == key)).map (fun p => p.2)

/-- Modelled from the spec: the request body as the handler's deserializer
sees it.  `createPayload`/`entryPayload` are well-formed JSON for the
respective payload types; `malformed` is anything else. -/
inductive Bytes
  | createPayload (lobby_id : String)
  | entryPayload (round_id : String) (entry : String)
  | malformed
deriving DecidableEq, Repr

/-- Modelled from the spec: the readable connection tail — its total size
in bytes and its contents. -/
structure BodyStream where
  size : Nat
  contents : Bytes
deriving DecidableEq, Repr

/-- Modelled from the spec: `read_size_async(reader, limit)` reads at most
`limit` bytes; a body exceeding the context-configured maximum fails. -/
def read_size_async (reader : BodyStream) (limit : Nat) : Except Err Bytes :=
  if reader.size > limit then Except.error "body exceeds maximum size"
  else Except.ok reader.contents

/-- `CreatePayload { lobby_id }` from `routes/games/mod.rs` -/
structure CreatePayload where
  lobby_id : String
deriving DecidableEq, Repr

/-- `EntryPayload { round_id, entry }` from `routes/games/mod.rs` -/
structure EntryPayload where
  round_id : String
  entry : String
deriving DecidableEq, Repr

/-- `serde_json::from_slice::<CreatePayload>` on the body bytes. -/
def deserializeCreate (b : Bytes) : Except Err CreatePayload :=
  match b with
  | Bytes.createPayload lid => Except.ok { lobby_id := lid }
  | _ => Except.error "deserialization failed"

/-- `serde_json::from_slice::<EntryPayload>` on the body bytes. -/
def deserializeEntry (b : Bytes) : Except Err EntryPayload :=
  match b with
  | Bytes.entryPayload rid e => Except.ok { round_id := rid, entry := e }
  | _ => Except.error "deserialization failed"

/-- `log_err` from `routes/games/mod.rs`: logs and returns the error
unchanged (logging is unobservable here). -/
def log_err (e : Err) : Err := e

/-- `errors::humanize_error`: converts an error into a human-readable
`std::io::Error`; on our string-valued errors it keeps the message. -/
def humanize_error (e : Err) : Err := e

/-- The `and_then` row extraction in `create_entry`: columns 0–4 are
lobby_id, game_id, round_id, member_id, user_id; any failing `try_get`
collapses the whole extraction to `None`. -/
def extractGameForEntry (row : Row) : Option (String × String × String × String × String) := do
  let lobby_id ← ((tryGetString row 0).mapError log_err).toOption
  let game_id ← ((tryGetString row 1).mapError log_err).toOption
  let round_id ← ((tryGetString row 2).mapError log_err).toOption
  let member_id ← ((tryGetString row 3).mapError log_err).toOption
  let user_id ← ((tryGetString row 4).mapError log_err).toOption
  some (lobby_id, game_id, round_id, member_id, user_id)

/-- The `and_then` row extraction on the inserted entry in `create_entry`:
columns 0–2 are entry_id, entry, round_id. -/
def extractCreatedEntry (row : Row) : Option (String × String × String) := do
  let entry_id ← ((tryGetString row 0).mapError log_err).toOption
  let entry ← ((tryGetString row 1).mapError log_err).toOption
  let round_id ← ((tryGetString row 2).mapError log_err).toOption
  some (entry_id, entry, round_id)

/-- `routes::games::create_entry`: requires an authenticated user, reads
and deserializes the body, locates the game row for the round, inserts the
entry, and (when the insert returned a row) enqueues a
`CheckRoundFulfillment` job, swallowing any enqueue failure. -/
def create_entry (context : Context) (reader : BodyStream) : M Response := fun es =>
  match context.authority with
  | Authority.anonymous => (Except.ok (Response.not_found.cors context.cors), es)
  | Authority.user uid _ =>
    match read_size_async reader context.pending with
    | Except.error e => (Except.error e, es)
    | Except.ok contents =>
    match deserializeEntry contents with
    | Except.error e => (Except.error e, es)
    | Except.ok payload =>
    let es := es ++ [Effect.query QueryName.gameForEntry [payload.round_id, uid]]
    match context.records.query QueryName.gameForEntry [payload.round_id, uid] with
    | Except.error e => (Except.error e, es)
    | Except.ok rows =>
    match rows.head?.bind extractGameForEntry with
    | none => (Except.ok (Response.not_found.cors context.cors), es)
    | some authority =>
    let params := [authority.2.2.1,        -- round_id
                   authority.2.2.2.1,      -- member_id
                   payload.entry,          -- entry
                   authority.2.1,          -- game_id
                   authority.1,            -- lobby_id
                   authority.2.2.2.2]      -- user_id
    let es := es ++ [Effect.query QueryName.createEntry params]
    match (context.records.query QueryName.createEntry params).mapError log_err with
    | Except.error e => (Except.error e, es)
    | Except.ok rows2 =>
    match rows2.head?.bind extractCreatedEntry with
    | some (_entry_id, _entry, round_id) =>
      let job := Job.CheckRoundFulfillment round_id none
      let es := es ++ [Effect.enqueue job]
      match context.jobs.queue job with
      | Except.ok _id => (Except.ok (Response.default.cors context.cors), es)
      | Except.error _e => (Except.ok (Response.default.cors context.cors), es)
    | none => (Except.ok (Response.default.cors context.cors), es)

/-- `members_for_game`: loads and converts every member row of a game. -/
def members_for_game (context : Context) (id : String) : M (List GameMember) := fun es =>
  let es := es ++ [Effect.query QueryName.loadMembers [id]]
  match context.records.query QueryName.loadMembers [id] with
  | Except.error e => (Except.error e, es)
  | Except.ok rows =>
    (rows.mapM (fun r => do
      let member_id ← (tryGetNamedString r "member_id").mapError humanize_error
      let joined ← (tryGetNamedTime r "created_at").mapError humanize_error
      let user_id ← (tryGetNamedString r "user_id").mapError humanize_error
      let email ← (tryGetNamedString r "user_email").mapError humanize_error
      let name ← (tryGetNamedString r "user_name").mapError humanize_error
      Except.ok { member_id, user_id, email, name, joined : GameMember }), es)

/-- `rounds_for_game`: loads and converts every round row of a game; the
`pos` column is an `i32` cast with `as u32`. -/
def rounds_for_game (context : Context) (id : String) : M (List GameRound) := fun es =>
  let es := es ++ [Effect.query QueryName.loadRounds [id]]
  match context.records.query QueryName.loadRounds [id] with
  | Except.error e => (Except.error e, es)
  | Except.ok rows =>
    (rows.mapM (fun row => do
      let id ← (tryGetNamedString row "id").mapError humanize_error
      let position ← (tryGetNamedI32 row "pos").mapError humanize_error
      let prompt ← (tryGetNamedString row "prompt").mapError humanize_error
      let created ← (tryGetNamedTime row "created_at").mapError humanize_error
      let started ← (tryGetNamedOptTime row "started_at").mapError humanize_error
      let completed ← (tryGetNamedOptTime row "completed_at").mapError humanize_error
      let fulfilled ← (tryGetNamedOptTime row "fulfilled_at").mapError humanize_error
      Except.ok { id, position := (position % (2 : Int) ^ 32).toNat, prompt,
                  created, started, fulfilled, completed : GameRound }), es)

/-- The `and_then` row extraction in `find_game`: columns 0–2 are id,
created (a timestamp), name. -/
def extractGameDetails (row : Row) : Option (String × Int × String) := do
  let id ← (tryGetString row 0).toOption
  let created ← ((tryGetTime row 1).mapError (fun _ => humanize_error "bad date time")).toOption
  let name ← (tryGetString row 2).toOption
  some (id, created, name)

/-- `find_game`: loads the game row visible to the user, then its rounds
and members, and serializes the combined details. -/
def find_game (context : Context) (uid : String) (gid : String) : M Response := fun es =>
  let es := es ++ [Effect.query QueryName.loadGame [gid, uid]]
  match context.records.query QueryName.loadGame [gid, uid] with
  | Except.error e => (Except.error e, es)
  | Except.ok rows =>
  match rows.head?.bind extractGameDetails with
  | none => (Except.ok (Response.not_found.cors context.cors), es)
  | some (id, created, name) =>
  match (rounds_for_game context id es : Except Err (List GameRound) × Effects) with
  | (Except.error e, es) => (Except.error (log_err e), es)
  | (Except.ok rounds, es) =>
  match (members_for_game context id es : Except Err (List GameMember) × Effects) with
  | (Except.error e, es) => (Except.error (log_err e), es)
  | (Except.ok members, es) =>
    ((Response.ok_json (ResponseBody.gameDetails id created name members rounds)).map
      (fun r => r.cors context.cors), es)

/-- `routes::games::find`: requires an authenticated user; with exactly one
`ids[]` query value it looks that game up, otherwise it answers not-found
("find all games not implemented yet"). -/
def find (context : Context) (uri : Uri) : M Response := fun es =>
  match context.authority with
  | Authority.anonymous => (Except.ok (Response.not_found.cors context.cors), es)
  | Authority.user uid _ =>
    let ids := query_values uri "ids[]"
    if ids.length ≠ 1 then
      (Except.ok (Response.not_found.cors context.cors), es)
    else
      match ids.head? with
      | none => (Except.error "invalid id", es)
      | some gid => find_game context uid gid es

/-- `routes::games::create`: requires an authenticated user, reads and
deserializes the body, verifies the lobby is visible to the user, then
enqueues a `CreateGame` job — propagating an enqueue failure with `?` —
and answers with the job-handle envelope. -/
def create (context : Context) (reader : BodyStream) : M Response := fun es =>
  match context.authority with
  | Authority.anonymous => (Except.ok (Response.not_found.cors context.cors), es)
  | Authority.user uid _ =>
    match read_size_async reader context.pending with
    | Except.error e => (Except.error e, es)
    | Except.ok contents =>
    match deserializeCreate contents with
    | Except.error e => (Except.error e, es)
    | Except.ok payload =>
    let es := es ++ [Effect.query QueryName.loadLobbyDetails [payload.lobby_id, uid]]
    match context.records.query QueryName.loadLobbyDetails [payload.lobby_id, uid] with
    | Except.error e => (Except.error e, es)
    | Except.ok rows =>
    match rows.head? with
    | none => (Except.ok (Response.not_found.cors context.cors), es)
    | some _ =>
      let job := Job.CreateGame uid payload.lobby_id none
      let es := es ++ [Effect.enqueue job]
      match context.jobs.queue job with
      | Except.error e => (Except.error e, es)
      | Except.ok job_id =>
        ((Response.ok_json (ResponseBody.jobHandle job_id none)).map
          (fun r => r.cors context.cors), es)

/-- `health_check` from `lib.rs`: serializes the current time. -/
def health_check (context : Context) : Except Err Response :=
  (Response.ok_json (ResponseBody.healthCheck context.now)).map
    (fun r => r.cors context.cors)

/-- Modelled from the spec: the handlers of the route surface whose
modules are outside the provided sources (`oauth`, `routes::jobs`,
`routes::lobbies`, `routes::lobby_memberships`, `routes::rounds`,
`routes::games::create_entry_vote`).  The dispatch claims hold for every
behavior of these, so they are abstract fields. -/
structure RouteHandlers where
  auth_redirect : Context → M Response
  identify : Context → M Response
  destroy : Context → Uri → M Response
  callback : Context → Uri → M Response
  jobs_find : Context → Uri → M Response
  lobbies_find : Context → Uri → M Response
  lobbies_create : Context → BodyStream → M Response
  memberships_create : Context → BodyStream → M Response
  memberships_destroy : Context → BodyStream → M Response
  rounds_find : Context → Uri → M Response
  create_entry_vote : Context → BodyStream → M Response

/-- The `match (method, uri.path())` expression of `route` in `lib.rs`:
CORS preflight first, then the registered routes in source order, then the
not-found fallback (sequential comparison of the match arms). -/
def route_match (h : RouteHandlers) (ctx : Context) (method : RequestMethod)
    (uri : Uri) (body : BodyStream) : M Response :=
  if method = RequestMethod.OPTIONS then
    fun es => (Except.ok (Response.default.cors ctx.cors), es)
  else if method = RequestMethod.GET ∧ uri.path = "/auth/redirect" then h.auth_redirect ctx
  else if method = RequestMethod.GET ∧ uri.path = "/auth/identify" then h.identify ctx
  else if method = RequestMethod.GET ∧ uri.path = "/auth/destroy" then h.destroy ctx uri
  else if method = RequestMethod.GET ∧ uri.path = "/auth/callback" then h.callback ctx uri
  else if method = RequestMethod.GET ∧ uri.path = "/health-check" then
    fun es => (health_check ctx, es)
  else if method = RequestMethod.GET ∧ uri.path = "/jobs" then h.jobs_find ctx uri
  else if method = RequestMethod.GET ∧ uri.path = "/lobbies" then h.lobbies_find ctx uri
  else if method = RequestMethod.POST ∧ uri.path = "/lobbies" then h.lobbies_create ctx body
  else if method = RequestMethod.POST ∧ uri.path = "/lobby-memberships" then
    h.memberships_create ctx body
  else if method = RequestMethod.DELETE ∧ uri.path = "/lobby-memberships" then
    h.memberships_destroy ctx body
  else if method = RequestMethod.POST ∧ uri.path = "/games" then create ctx body
  else if method = RequestMethod.GET ∧ uri.path = "/games" then find ctx uri
  else if method = RequestMethod.GET ∧ uri.path = "/rounds" then h.rounds_find ctx uri
  else if method = RequestMethod.POST ∧ uri.path = "/round-entry-votes" then
    h.create_entry_vote ctx body
  else if method = RequestMethod.POST ∧ uri.path = "/round-entries" then
    create_entry ctx body
  else
    fun es => (Except.ok (Response.not_found.cors ctx.cors), es)

/-- The dispatch of `route` in `lib.rs`: the route match followed by
`unwrap_or_else`, which logs a failing handler's error and replaces it with
the generic failure response (still carrying the CORS header). -/
def route (h : RouteHandlers) (ctx : Context) (method : RequestMethod)
    (uri : Uri) (body : BodyStream) : Effects → Response × Effects := fun es =>
  match route_match h ctx method uri body es with
  | (Except.ok response, es) => (response, es)
  | (Except.error _e, es) => (Response.failed.cors ctx.cors, es)

/-- The (method, path) pairs with a registered handler in `route`'s match
(the OPTIONS preflight arm and the not-found fallback excluded). -/
def registered (method : RequestMethod) (path : String) : Bool :=
  decide ((method = RequestMethod.GET ∧ path = "/auth/redirect")
    ∨ (method = RequestMethod.GET ∧ path = "/auth/identify")
    ∨ (method = RequestMethod.GET ∧ path = "/auth/destroy")
    ∨ (method = RequestMethod.GET ∧ path = "/auth/callback")
    ∨ (method = RequestMethod.GET ∧ path = "/health-check")
    ∨ (method = RequestMethod.GET ∧ path = "/jobs")
    ∨ (method = RequestMethod.GET ∧ path = "/lobbies")
    ∨ (method = RequestMethod.POST ∧ path = "/lobbies")
    ∨ (method = RequestMethod.POST ∧ path = "/lobby-memberships")
    ∨ (method = RequestMethod.DELETE ∧ path = "/lobby-memberships")
    ∨ (method = RequestMethod.POST ∧ path = "/games")
    ∨ (method = RequestMethod.GET ∧ path = "/games")
    ∨ (method = RequestMethod.GET ∧ path = "/rounds")
    ∨ (method = RequestMethod.POST ∧ path = "/round-entry-votes")
    ∨ (method = RequestMethod.POST ∧ path = "/round-entries"))

/-! ### Concrete fixtures for witnesses and counterexamples -/

/-- A record store that answers every query with no rows. -/
def storeEmpty : RecordStore := ⟨fun _ _ => Except.ok []⟩

/-- A job store whose enqueue always succeeds with identifier "J1". -/
def jobsOk : JobStore := ⟨fun _ => Except.ok "J1"⟩

/-- A job store whose enqueue always fails with a persistence error. -/
def jobsFail : JobStore := ⟨fun _ => Except.error "persistence error"⟩

/-- Stub handlers for the route modules outside the provided sources. -/
def hStub : RouteHandlers where
  auth_redirect := fun _ => fun es => (Except.ok Response.not_found, es)
  identify := fun _ => fun es => (Except.ok Response.not_found, es)
  destroy := fun _ _ => fun es => (Except.ok Response.not_found, es)
  callback := fun _ _ => fun es => (Except.ok Response.not_found, es)
  jobs_find := fun _ _ => fun es => (Except.ok Response.not_found, es)
  lobbies_find := fun _ _ => fun es => (Except.ok Response.not_found, es)
  lobbies_create := fun _ _ => fun es => (Except.ok Response.not_found, es)
  memberships_create := fun _ _ => fun es => (Except.ok Response.not_found, es)
  memberships_destroy := fun _ _ => fun es => (Except.ok Response.not_found, es)
  rounds_find := fun _ _ => fun es => (Except.ok Response.not_found, es)
  create_entry_vote := fun _ _ => fun es => (Except.ok Response.not_found, es)

/-- The URI of the `/games` routes, with no query parameters. -/
def uriGames : Uri := ⟨"/games", []⟩

/-- An authenticated context over empty stores. -/
def ctxUser : Context :=
  { authority := Authority.user "U1" "u1@example.com",
    cors := "https://krumi.example",
    pending := 64,
    records := storeEmpty,
    jobs := jobsOk,
    now := 0 }

/-- An anonymous context over empty stores. -/
def ctxAnon : Context := { ctxUser with authority := Authority.anonymous }

/-- A body that is not valid JSON for any payload type. -/
def bodyMalformed : BodyStream := ⟨5, Bytes.malformed⟩

/-- A well-formed create-game body naming lobby "L1". -/
def bodyCreateL1 : BodyStream := ⟨16, Bytes.createPayload "L1"⟩

/-- A well-formed round-entry body for round "R1". -/
def bodyEntryR1 : BodyStream := ⟨16, Bytes.entryPayload "R1" "hello"⟩

/-- A body larger than `ctxUser`'s 64-byte `pending` limit. -/
def bodyOversized : BodyStream := ⟨100, Bytes.createPayload "L1"⟩

/-- An authenticated context whose record store knows lobby "L1" and whose
job store fails every enqueue with a persistence error. -/
def ctxLobbyJobsFail : Context :=
  { ctxUser with
    records := ⟨fun q _ => match q with
      | QueryName.loadLobbyDetails => Except.ok [[("id", ColVal.s "L1")]]
      | _ => Except.ok []⟩,
    jobs := jobsFail }

/-- An authenticated context whose record store knows lobby "L1" and whose
job store accepts every enqueue. -/
def ctxLobbyJobsOk : Context := { ctxLobbyJobsFail with jobs := jobsOk }

/-- A record store holding the game row for round "R1" and answering the
entry insert with the inserted row. -/
def storeEntryR1 : RecordStore :=
  ⟨fun q _ => match q with
    | QueryName.gameForEntry =>
        Except.ok [[("lobby_id", ColVal.s "L1"), ("game_id", ColVal.s "G1"),
                    ("round_id", ColVal.s "R1"), ("member_id", ColVal.s "M1"),
                    ("user_id", ColVal.s "U1")]]
    | QueryName.createEntry =>
        Except.ok [[("id", ColVal.s "E1"), ("entry", ColVal.s "hello"),
                    ("round_id", ColVal.s "R1")]]
    | _ => Except.ok []⟩

/-- Entry-creation context where the insert succeeds but the enqueue fails. -/
def ctxEntryJobsFail : Context :=
  { ctxUser with records := storeEntryR1, jobs := jobsFail }

/-- A record store holding the game row for round "R1" whose entry insert
returns no row. -/
def storeEntryNoRow : RecordStore :=
  ⟨fun q _ => match q with
    | QueryName.gameForEntry =>
        Except.ok [[("lobby_id", ColVal.s "L1"), ("game_id", ColVal.s "G1"),
                    ("round_id", ColVal.s "R1"), ("member_id", ColVal.s "M1"),
                    ("user_id", ColVal.s "U1")]]
    | _ => Except.ok []⟩

/-- Entry-creation context where the insert returns no row. -/
def ctxEntryNoRow : Context :=
  { ctxUser with records := storeEntryNoRow, jobs := jobsOk }

/-! ### Claim theorems -/

/-- C3: every handler that requires authentication (`create`, `find`,
`create_entry`) answers an anonymous caller with the not-found response
(carrying the CORS header) — never a distinct forbidden or unauthorized
status — and performs no side effect. -/
theorem C3_anonymous_gets_not_found (ctx : Context) (uri : Uri) (reader : BodyStream)
    (h : ctx.authority = Authority.anonymous) :
    create ctx reader [] = (Except.ok (Response.not_found.cors ctx.cors), [])
    ∧ find ctx uri [] = (Except.ok (Response.not_found.cors ctx.cors), [])
    ∧ create_entry ctx reader [] = (Except.ok (Response.not_found.cors ctx.cors), []) := by
  refine ⟨?_, ?_, ?_⟩ <;> simp [create, find, create_entry, h]

/-- C3 witness: the anonymous fixture context hits all three branches. -/
theorem C3_anonymous_gets_not_found_witness :
    create ctxAnon bodyCreateL1 [] = (Except.ok (Response.not_found.cors ctxAnon.cors), [])
    ∧ find ctxAnon uriGames [] = (Except.ok (Response.not_found.cors ctxAnon.cors), [])
    ∧ create_entry ctxAnon bodyEntryR1 [] =
        (Except.ok (Response.not_found.cors ctxAnon.cors), []) :=
  C3_anonymous_gets_not_found ctxAnon uriGames bodyCreateL1 rfl

/-- C5: an `OPTIONS` request on any path yields the CORS-preflight
response built purely from the context's CORS policy — no body, the CORS
origin header set — independent of the registered handlers (`h` vs `h₂`)
and of the caller's authority (`ctx` vs `ctx` with authority `a`). -/
theorem C5_options_preflight (h h₂ : RouteHandlers) (ctx : Context) (a : Authority)
    (uri : Uri) (reader : BodyStream) :
    route h ctx RequestMethod.OPTIONS uri reader [] = (Response.default.cors ctx.cors, [])
    ∧ route h₂ { ctx with authority := a } RequestMethod.OPTIONS uri reader [] =
        (Response.default.cors ctx.cors, [])
    ∧ (Response.default.cors ctx.cors).body = none
    ∧ (Response.default.cors ctx.cors).corsOrigin = some ctx.cors :=
  ⟨rfl, rfl, rfl, rfl⟩

set_option maxHeartbeats 1600000 in
/-- C6: a request whose (method, path) pair is not `OPTIONS` and matches no
registered route falls through to the not-found response carrying the CORS
origin header, with no error raised and no side effect. -/
theorem C6_unregistered_route_not_found (h : RouteHandlers) (ctx : Context)
    (method : RequestMethod) (uri : Uri) (reader : BodyStream)
    (hm : method ≠ RequestMethod.OPTIONS)
    (hr : registered method uri.path = false) :
    route_match h ctx method uri reader [] =
      (Except.ok (Response.not_found.cors ctx.cors), [])
    ∧ route h ctx method uri reader [] = (Response.not_found.cors ctx.cors, []) := by
  have hmatch : route_match h ctx method uri reader [] =
      (Except.ok (Response.not_found.cors ctx.cors), []) := by
    unfold route_match
    simp only [registered, decide_eq_false_iff_not, not_or] at hr
    obtain ⟨r1, r2, r3, r4, r5, r6, r7, r8, r9, r10, r11, r12, r13, r14, r15⟩ := hr
    rw [if_neg hm, if_neg r1, if_neg r2, if_neg r3, if_neg r4, if_neg r5, if_neg r6,
        if_neg r7, if_neg r8, if_neg r9, if_neg r10, if_neg r11, if_neg r12, if_neg r13,
        if_neg r14, if_neg r15]
  refine ⟨hmatch, ?_⟩
  unfold route
  rw [hmatch]

/-- C6 witness: `PUT /games` is unregistered and answers not-found. -/
theorem C6_unregistered_route_not_found_witness :
    route_match hStub ctxUser RequestMethod.PUT uriGames bodyCreateL1 [] =
      (Except.ok (Response.not_found.cors ctxUser.cors), [])
    ∧ route hStub ctxUser RequestMethod.PUT uriGames bodyCreateL1 [] =
        (Response.not_found.cors ctxUser.cors, []) :=
  C6_unregistered_route_not_found hStub ctxUser RequestMethod.PUT uriGames bodyCreateL1
    (by decide) (by decide)

/-- C4: whenever the dispatched route computation fails with an error, the
dispatch boundary answers with the generic failure response instead — the
response still carries the CORS origin header, has no body, and does not
depend on the error value. -/
theorem C4_handler_error_becomes_failure (h : RouteHandlers) (ctx : Context)
    (method : RequestMethod) (uri : Uri) (reader : BodyStream) (e : Err) (tr : Effects)
    (h_err : route_match h ctx method uri reader [] = (Except.error e, tr)) :
    route h ctx method uri reader [] = (Response.failed.cors ctx.cors, tr)
    ∧ (Response.failed.cors ctx.cors).corsOrigin = some ctx.cors
    ∧ (Response.failed.cors ctx.cors).body = none := by
  refine ⟨?_, rfl, rfl⟩
  unfold route
  rw [h_err]

/-- C4 witness: `POST /games` with a malformed body fails inside the
handler and the dispatch boundary answers with the generic failure. -/
theorem C4_handler_error_becomes_failure_witness :
    route hStub ctxUser RequestMethod.POST uriGames bodyMalformed [] =
      (Response.failed.cors ctxUser.cors, [])
    ∧ (Response.failed.cors ctxUser.cors).corsOrigin = some ctxUser.cors
    ∧ (Response.failed.cors ctxUser.cors).body = none :=
  C4_handler_error_becomes_failure hStub ctxUser RequestMethod.POST uriGames bodyMalformed
    "deserialization failed" [] rfl

/-- C9: an authenticated `GET /games` whose `ids[]` list does not have
exactly one element answers not-found (with the CORS header) and issues no
record-store query (the effect trace stays empty). -/
theorem C9_find_requires_exactly_one_id (ctx : Context) (uri : Uri) (uid email : String)
    (h_auth : ctx.authority = Authority.user uid email)
    (h_len : (query_values uri "ids[]").length ≠ 1) :
    find ctx uri [] = (Except.ok (Response.not_found.cors ctx.cors), []) := by
  simp [find, h_auth, h_len]

/-- C9 witness: a request with no `ids[]` parameter at all. -/
theorem C9_find_requires_exactly_one_id_witness :
    find ctxUser uriGames [] = (Except.ok (Response.not_found.cors ctxUser.cors), []) :=
  C9_find_requires_exactly_one_id ctxUser uriGames "U1" "u1@example.com" rfl (by decide)

/-- C2: an authenticated `POST /games` whose lobby-details query returns no
row answers not-found (with the CORS header); the trace holds only that one
query, so no job was enqueued on the job store. -/
theorem C2_unknown_lobby_no_enqueue (ctx : Context) (reader : BodyStream)
    (uid email : String) (contents : Bytes) (payload : CreatePayload)
    (h_auth : ctx.authority = Authority.user uid email)
    (h_read : read_size_async reader ctx.pending = Except.ok contents)
    (h_de : deserializeCreate contents = Except.ok payload)
    (h_q : ctx.records.query QueryName.loadLobbyDetails [payload.lobby_id, uid] =
      Except.ok []) :
    create ctx reader [] =
      (Except.ok (Response.not_found.cors ctx.cors),
       [Effect.query QueryName.loadLobbyDetails [payload.lobby_id, uid]])
    ∧ ∀ j : Job, Effect.enqueue j ∉ (create ctx reader []).2 := by
  have h : create ctx reader [] =
      (Except.ok (Response.not_found.cors ctx.cors),
       [Effect.query QueryName.loadLobbyDetails [payload.lobby_id, uid]]) := by
    simp [create, h_auth, h_read, h_de, h_q]
  refine ⟨h, ?_⟩
  intro j
  rw [h]
  simp

/-- C2 witness: lobby "L1" is unknown to the empty record store. -/
theorem C2_unknown_lobby_no_enqueue_witness :
    create ctxUser bodyCreateL1 [] =
      (Except.ok (Response.not_found.cors ctxUser.cors),
       [Effect.query QueryName.loadLobbyDetails ["L1", "U1"]])
    ∧ ∀ j : Job, Effect.enqueue j ∉ (create ctxUser bodyCreateL1 []).2 :=
  C2_unknown_lobby_no_enqueue ctxUser bodyCreateL1 "U1" "u1@example.com"
    (Bytes.createPayload "L1") { lobby_id := "L1" } rfl rfl rfl rfl

/-- C7: in both body-consuming handlers, an oversized body (read failure)
or a malformed body (deserialization failure) fails the request with the
error — mapped to the generic failure response at the dispatch boundary,
by C4's property — and the effect trace stays empty: no record-store query
and no job enqueue happened. -/
theorem C7_body_failure_no_side_effects (ctx : Context) (reader : BodyStream)
    (uid email : String)
    (h_auth : ctx.authority = Authority.user uid email) :
    (∀ e : Err, read_size_async reader ctx.pending = Except.error e →
      create ctx reader [] = (Except.error e, [])
      ∧ create_entry ctx reader [] = (Except.error e, []))
    ∧ (∀ (contents : Bytes) (e : Err),
        read_size_async reader ctx.pending = Except.ok contents →
        deserializeCreate contents = Except.error e →
        create ctx reader [] = (Except.error e, []))
    ∧ (∀ (contents : Bytes) (e : Err),
        read_size_async reader ctx.pending = Except.ok contents →
        deserializeEntry contents = Except.error e →
        create_entry ctx reader [] = (Except.error e, [])) := by
  refine ⟨?_, ?_, ?_⟩
  · intro e h_read
    constructor <;> simp [create, create_entry, h_auth, h_read]
  · intro contents e h_read h_de
    simp [create, h_auth, h_read, h_de]
  · intro contents e h_read h_de
    simp [create_entry, h_auth, h_read, h_de]

/-- C7 witness: a 100-byte body against the 64-byte limit fails the read in
both handlers, with an empty effect trace. -/
theorem C7_body_failure_no_side_effects_witness :
    create ctxUser bodyOversized [] = (Except.error "body exceeds maximum size", [])
    ∧ create_entry ctxUser bodyOversized [] =
        (Except.error "body exceeds maximum size", []) :=
  (C7_body_failure_no_side_effects ctxUser bodyOversized "U1" "u1@example.com" rfl).1
    "body exceeds maximum size" rfl

/-- C8: a fully successful `POST /games` — authenticated user, lobby row
found, enqueue returning `job_id` — answers with the ok JSON response whose
body is the job-handle envelope `{ id := job_id, result := none }`, after
exactly the lobby query and the `CreateGame` enqueue. -/
theorem C8_create_success_envelope (ctx : Context) (reader : BodyStream)
    (uid email job_id : String) (contents : Bytes) (payload : CreatePayload)
    (row : Row) (rest : List Row)
    (h_auth : ctx.authority = Authority.user uid email)
    (h_read : read_size_async reader ctx.pending = Except.ok contents)
    (h_de : deserializeCreate contents = Except.ok payload)
    (h_q : ctx.records.query QueryName.loadLobbyDetails [payload.lobby_id, uid] =
      Except.ok (row :: rest))
    (h_queue : ctx.jobs.queue (Job.CreateGame uid payload.lobby_id none) =
      Except.ok job_id) :
    create ctx reader [] =
      (Except.ok { status := ResponseStatus.ok, corsOrigin := some ctx.cors,
                   body := some (ResponseBody.jobHandle job_id none) },
       [Effect.query QueryName.loadLobbyDetails [payload.lobby_id, uid],
        Effect.enqueue (Job.CreateGame uid payload.lobby_id none)]) := by
  simp [create, h_auth, h_read, h_de, h_q, h_queue, Response.ok_json, Response.cors,
        Except.map]

/-- C8 witness: lobby "L1" exists and the enqueue yields identifier "J1". -/
theorem C8_create_success_envelope_witness :
    create ctxLobbyJobsOk bodyCreateL1 [] =
      (Except.ok { status := ResponseStatus.ok, corsOrigin := some ctxLobbyJobsOk.cors,
                   body := some (ResponseBody.jobHandle "J1" none) },
       [Effect.query QueryName.loadLobbyDetails ["L1", "U1"],
        Effect.enqueue (Job.CreateGame "U1" "L1" none)]) :=
  C8_create_success_envelope ctxLobbyJobsOk bodyCreateL1 "U1" "u1@example.com" "J1"
    (Bytes.createPayload "L1") { lobby_id := "L1" } [("id", ColVal.s "L1")] []
    rfl rfl rfl rfl rfl

/-- A computation whose `mapError` image succeeded itself succeeded. -/
theorem mapError_ok {α β γ : Type} (x : Except α β) (f : α → γ) (a : β)
    (h : x.mapError f = Except.ok a) : x = Except.ok a := by
  cases x <;> simp_all [Except.mapError]

/-- C1 counterexample: with a lobby that exists and a job store whose
enqueue fails with a persistence error, `routes::games::create` does NOT
return a success response — the `?` on `queue` propagates the error (the
enqueue effect in the trace shows it was attempted), and at the dispatch
boundary the user receives the generic failure response, contradicting the
claim for `POST /games`. -/
theorem C1_counterexample_create_propagates :
    ctxLobbyJobsFail.jobs.queue (Job.CreateGame "U1" "L1" none) =
      Except.error "persistence error"
    ∧ create ctxLobbyJobsFail bodyCreateL1 [] =
        (Except.error "persistence error",
         [Effect.query QueryName.loadLobbyDetails ["L1", "U1"],
          Effect.enqueue (Job.CreateGame "U1" "L1" none)])
    ∧ (create ctxLobbyJobsFail bodyCreateL1 []).1.isOk = false
    ∧ (route hStub ctxLobbyJobsFail RequestMethod.POST uriGames bodyCreateL1 []).1 =
        Response.failed.cors "https://krumi.example" :=
  ⟨rfl, rfl, rfl, rfl⟩

/-- C1 (amended): the swallow-the-enqueue-failure policy holds for
`POST /round-entries` only: in `create_entry`, when the entry insert
returned a row and the `CheckRoundFulfillment` enqueue fails, the handler
still answers with the success (default) response carrying the CORS header
(the trace shows the attempted enqueue). -/
theorem C1_amended_entry_enqueue_failure_swallowed
    (ctx : Context) (reader : BodyStream) (uid email : String)
    (contents : Bytes) (payload : EntryPayload) (rows rows2 : List Row)
    (g : String × String × String × String × String)
    (entry_id entry round_id : String) (e : Err)
    (h_auth : ctx.authority = Authority.user uid email)
    (h_read : read_size_async reader ctx.pending = Except.ok contents)
    (h_de : deserializeEntry contents = Except.ok payload)
    (h_q1 : ctx.records.query QueryName.gameForEntry [payload.round_id, uid] =
      Except.ok rows)
    (h_g : rows.head?.bind extractGameForEntry = some g)
    (h_q2 : ctx.records.query QueryName.createEntry
        [g.2.2.1, g.2.2.2.1, payload.entry, g.2.1, g.1, g.2.2.2.2] = Except.ok rows2)
    (h_created : rows2.head?.bind extractCreatedEntry =
      some (entry_id, entry, round_id))
    (h_fail : ctx.jobs.queue (Job.CheckRoundFulfillment round_id none) =
      Except.error e) :
    create_entry ctx reader [] =
      (Except.ok (Response.default.cors ctx.cors),
       [Effect.query QueryName.gameForEntry [payload.round_id, uid],
        Effect.query QueryName.createEntry
          [g.2.2.1, g.2.2.2.1, payload.entry, g.2.1, g.1, g.2.2.2.2],
        Effect.enqueue (Job.CheckRoundFulfillment round_id none)]) := by
  simp [create_entry, h_auth, h_read, h_de, h_q1, h_g, h_q2, h_created, h_fail,
        Except.mapError, log_err]

/-- C1 (amended) witness: round "R1" with the insert succeeding and the
enqueue failing still yields the success default response. -/
theorem C1_amended_entry_enqueue_failure_swallowed_witness :
    create_entry ctxEntryJobsFail bodyEntryR1 [] =
      (Except.ok (Response.default.cors ctxEntryJobsFail.cors),
       [Effect.query QueryName.gameForEntry ["R1", "U1"],
        Effect.query QueryName.createEntry ["R1", "M1", "hello", "G1", "L1", "U1"],
        Effect.enqueue (Job.CheckRoundFulfillment "R1" none)]) :=
  C1_amended_entry_enqueue_failure_swallowed ctxEntryJobsFail bodyEntryR1
    "U1" "u1@example.com" (Bytes.entryPayload "R1" "hello")
    { round_id := "R1", entry := "hello" }
    [[("lobby_id", ColVal.s "L1"), ("game_id", ColVal.s "G1"),
      ("round_id", ColVal.s "R1"), ("member_id", ColVal.s "M1"),
      ("user_id", ColVal.s "U1")]]
    [[("id", ColVal.s "E1"), ("entry", ColVal.s "hello"),
      ("round_id", ColVal.s "R1")]]
    ("L1", "G1", "R1", "M1", "U1") "E1" "hello" "R1" "persistence error"
    rfl rfl rfl rfl rfl rfl rfl rfl

/-- Any enqueue appearing in `create_entry`'s effect trace is a
`CheckRoundFulfillment` job for the round of a row that the entry-insert
query actually returned. -/
theorem create_entry_enqueue_inv (ctx' : Context) (reader' : BodyStream) (j : Job)
    (hj : Effect.enqueue j ∈ (create_entry ctx' reader' []).2) :
    ∃ (params : List String) (rows' : List Row) (entry_id entry round_id : String),
      ctx'.records.query QueryName.createEntry params = Except.ok rows'
      ∧ rows'.head?.bind extractCreatedEntry = some (entry_id, entry, round_id)
      ∧ j = Job.CheckRoundFulfillment round_id none := by
  simp only [create_entry] at hj
  split at hj
  · simp at hj
  · split at hj
    · simp at hj
    · split at hj
      · simp at hj
      · split at hj
        · simp at hj
        · split at hj
          · simp at hj
          · split at hj
            · simp at hj
            · split at hj
              · split at hj <;>
                  (simp at hj
                   exact ⟨_, _, _, _, _, mapError_ok _ _ _ (by assumption),
                          by assumption, hj⟩)
              · simp at hj

/-- C10: in `create_entry`, when the entry insert returns no usable row the
handler still answers the success (default) response with the CORS header
and the trace holds the two queries only — no job enqueued; and in general
an enqueue appears in `create_entry`'s trace only for a
`CheckRoundFulfillment` job of a row the insert query returned. -/
theorem C10_entry_job_only_on_inserted_row (ctx : Context) (reader : BodyStream)
    (uid email : String) (contents : Bytes) (payload : EntryPayload)
    (rows rows2 : List Row) (g : String × String × String × String × String)
    (h_auth : ctx.authority = Authority.user uid email)
    (h_read : read_size_async reader ctx.pending = Except.ok contents)
    (h_de : deserializeEntry contents = Except.ok payload)
    (h_q1 : ctx.records.query QueryName.gameForEntry [payload.round_id, uid] =
      Except.ok rows)
    (h_g : rows.head?.bind extractGameForEntry = some g)
    (h_q2 : ctx.records.query QueryName.createEntry
        [g.2.2.1, g.2.2.2.1, payload.entry, g.2.1, g.1, g.2.2.2.2] = Except.ok rows2)
    (h_none : rows2.head?.bind extractCreatedEntry = none) :
    create_entry ctx reader [] =
      (Except.ok (Response.default.cors ctx.cors),
       [Effect.query QueryName.gameForEntry [payload.round_id, uid],
        Effect.query QueryName.createEntry
          [g.2.2.1, g.2.2.2.1, payload.entry, g.2.1, g.1, g.2.2.2.2]])
    ∧ (∀ j : Job, Effect.enqueue j ∉ (create_entry ctx reader []).2)
    ∧ ∀ (ctx' : Context) (reader' : BodyStream) (j : Job),
        Effect.enqueue j ∈ (create_entry ctx' reader' []).2 →
        ∃ (params : List String) (rows' : List Row) (entry_id entry round_id : String),
          ctx'.records.query QueryName.createEntry params = Except.ok rows'
          ∧ rows'.head?.bind extractCreatedEntry = some (entry_id, entry, round_id)
          ∧ j = Job.CheckRoundFulfillment round_id none := by
  have h : create_entry ctx reader [] =
      (Except.ok (Response.default.cors ctx.cors),
       [Effect.query QueryName.gameForEntry [payload.round_id, uid],
        Effect.query QueryName.createEntry
          [g.2.2.1, g.2.2.2.1, payload.entry, g.2.1, g.1, g.2.2.2.2]]) := by
    simp [create_entry, h_auth, h_read, h_de, h_q1, h_g, h_q2, h_none,
          Except.mapError, log_err]
  refine ⟨h, ?_, create_entry_enqueue_inv⟩
  intro j
  rw [h]
  simp

/-- C10 witness: the insert answering with no row yields the default
response, no enqueue in the trace. -/
theorem C10_entry_job_only_on_inserted_row_witness :
    create_entry ctxEntryNoRow bodyEntryR1 [] =
      (Except.ok (Response.default.cors ctxEntryNoRow.cors),
       [Effect.query QueryName.gameForEntry ["R1", "U1"],
        Effect.query QueryName.createEntry ["R1", "M1", "hello", "G1", "L1", "U1"]])
    ∧ ∀ j : Job, Effect.enqueue j ∉ (create_entry ctxEntryNoRow bodyEntryR1 []).2 :=
  let h := C10_entry_job_only_on_inserted_row ctxEntryNoRow bodyEntryR1
    "U1" "u1@example.com" (Bytes.entryPayload "R1" "hello")
    { round_id := "R1", entry := "hello" }
    [[("lobby_id", ColVal.s "L1"), ("game_id", ColVal.s "G1"),
      ("round_id", ColVal.s "R1"), ("member_id", ColVal.s "M1"),
      ("user_id", ColVal.s "U1")]]
    []
    ("L1", "G1", "R1", "M1", "U1")
    rfl rfl rfl rfl rfl rfl rfl
  ⟨h.1, h.2.1⟩

end Krumnet
